import Mathlib

/-!
Verification of the MyOKR application (`src/myokr_app.py`).

The application is a Streamlit front-end over a SQLite store.  We embed the
store as a pure Lean structure (`Store`) and each database-facing Python
function as a pure Lean function that threads the store explicitly.  SQLite
`REAL` progress values are embedded as `ℚ` (only comparison and verbatim
storage occur, so no floating-point rounding is involved); ids are `Int`
(SQLite `INTEGER`); nullable columns are `Option`.

The `key_results` column stores `json.dumps(key_results)` for a Python list
of strings and is read back with `json.loads`.  We embed the fragment of the
CPython `json` codec actually exercised: serialization of a list of strings
(`json.dumps` with its defaults, i.e. `ensure_ascii=True` and separator
`", "`), and parsing of JSON documents denoting arrays of strings.  Inputs
that are not arrays of strings are mapped to `none`; Python strings with lone
surrogates are not representable as Lean `Char` and never arise from the
encoder, the parser maps such escapes to `none`.
-/

namespace MyOkr

/-- JSON whitespace characters accepted between tokens by `json.loads`. -/
def isWs (c : Char) : Bool :=
  c = ' ' || c = '\t' || c = '\n' || c = '\r'

/-- Skip leading JSON whitespace. -/
def skipWs : List Char → List Char
  | [] => []
  | c :: cs => if isWs c then skipWs cs else c :: cs

/-- Lower-case hexadecimal digit, as produced by Python's `\uXXXX` escapes. -/
def hexDigit (n : Nat) : Char :=
  if n < 10 then Char.ofNat (48 + n) else Char.ofNat (87 + n)

/-- Four-digit lower-case hexadecimal rendering of `n < 0x10000`. -/
def hex4 (n : Nat) : List Char :=
  [hexDigit (n / 4096 % 16), hexDigit (n / 256 % 16), hexDigit (n / 16 % 16),
   hexDigit (n % 16)]

/-- Encoding of one character by `json.dumps` with `ensure_ascii=True`
(CPython `py_encode_basestring_ascii`): `"` and `\` and the five short
control escapes get two-character escapes, other control characters and all
non-ASCII characters become `\uXXXX` (a surrogate pair for code points above
`0xFFFF`), printable ASCII is emitted verbatim. -/
def encodeChar (c : Char) : List Char :=
  if c = '"' then ['\\', '"']
  else if c = '\\' then ['\\', '\\']
  else if c = '\x08' then ['\\', 'b']
  else if c = '\t' then ['\\', 't']
  else if c = '\n' then ['\\', 'n']
  else if c = '\x0c' then ['\\', 'f']
  else if c = '\r' then ['\\', 'r']
  else if c.toNat < 0x20 then '\\' :: 'u' :: hex4 c.toNat
  else if c.toNat ≤ 0x7e then [c]
  else if c.toNat < 0x10000 then '\\' :: 'u' :: hex4 c.toNat
  else
    ('\\' :: 'u' :: hex4 (0xd800 + (c.toNat - 0x10000) / 1024)) ++
      ('\\' :: 'u' :: hex4 (0xdc00 + (c.toNat - 0x10000) % 1024))

/-- JSON string literal for one Python string (as a character list). -/
def encodeString (s : List Char) : List Char :=
  '"' :: s.flatMap encodeChar ++ ['"']

/-- The `", "`-separated tail of a serialized list: `json.dumps` with its
default `item_separator = ", "` emits this after the first element. -/
def encodeItemsTail (items : List (List Char)) : List Char :=
  items.flatMap (fun s => ',' :: ' ' :: encodeString s)

/-- Serialization by `json.dumps` of a list of strings, over character lists. -/
def dumpsChars : List (List Char) → List Char
  | [] => ['[', ']']
  | x :: xs => '[' :: (encodeString x ++ encodeItemsTail xs ++ [']'])

/-- Model of `json.dumps(key_results)` for a Python list of strings
(`src/myokr_app.py:184`). -/
def json_dumps (l : List String) : String :=
  String.mk (dumpsChars (l.map String.data))

/-- Value of one hexadecimal digit, as accepted inside `\uXXXX`. -/
def hexVal (c : Char) : Option Nat :=
  if '0' ≤ c ∧ c ≤ '9' then some (c.toNat - 48)
  else if 'a' ≤ c ∧ c ≤ 'f' then some (c.toNat - 87)
  else if 'A' ≤ c ∧ c ≤ 'F' then some (c.toNat - 55)
  else none

/-- One step of the scanner for the body of a JSON string literal (CPython
`py_scanstring` in strict mode): at the closing quote it returns
`some (none, rest)`, at a literal character or an escape sequence it returns
`some (some c, rest)` with the decoded character, and it fails on unescaped
control characters, malformed escapes and end of input.  Surrogate-pair
escapes are recombined; a lone surrogate escape (which CPython would keep as
a lone surrogate in the `str`) has no Lean `Char` counterpart and yields
`none` — the encoder above never produces one. -/
def scanTok : List Char → Option (Option Char × List Char)
  | [] => none
  | c :: rest =>
    if c = '"' then some (none, rest)
    else if c = '\\' then
      match rest with
      | [] => none
      | e :: rest2 =>
        if e = '"' then some (some '"', rest2)
        else if e = '\\' then some (some '\\', rest2)
        else if e = '/' then some (some '/', rest2)
        else if e = 'b' then some (some '\x08', rest2)
        else if e = 'f' then some (some '\x0c', rest2)
        else if e = 'n' then some (some '\n', rest2)
        else if e = 'r' then some (some '\r', rest2)
        else if e = 't' then some (some '\t', rest2)
        else if e = 'u' then
          match rest2 with
          | a :: b :: c1 :: d :: rest3 =>
            match hexVal a, hexVal b, hexVal c1, hexVal d with
            | some x, some y, some z, some w =>
              let n := x * 4096 + y * 256 + z * 16 + w
              if 55296 ≤ n ∧ n ≤ 56319 then
                match rest3 with
                | s1 :: s2 :: a2 :: b2 :: c2 :: d2 :: rest5 =>
                  if s1 = '\\' ∧ s2 = 'u' then
                    match hexVal a2, hexVal b2, hexVal c2, hexVal d2 with
                    | some x2, some y2, some z2, some w2 =>
                      let m := x2 * 4096 + y2 * 256 + z2 * 16 + w2
                      if 56320 ≤ m ∧ m ≤ 57343 then
                        some (some (Char.ofNat (65536 + (n - 55296) * 1024 + (m - 56320))),
                          rest5)
                      else none
                    | _, _, _, _ => none
                  else none
                | _ => none
              else if 56320 ≤ n ∧ n ≤ 57343 then none
              else some (some (Char.ofNat n), rest3)
            | _, _, _, _ => none
          | _ => none
        else none
    else if c.toNat < 0x20 then none
    else some (some c, rest)

/-- The body of a JSON string literal after the opening quote: scan tokens
until the closing quote, returning the decoded characters and the remaining
input.  `fuel` bounds the number of decoded characters; callers pass the
input length, which always suffices because every token consumes at least
one input character. -/
def parseStringBody : Nat → List Char → Option (List Char × List Char)
  | 0, _ => none
  | fuel + 1, cs =>
    match scanTok cs with
    | some (none, rest) => some ([], rest)
    | some (some c, rest) => (parseStringBody fuel rest).map (fun p => (c :: p.1, p.2))
    | none => none

/-- Elements of a JSON array after the first one: repeatedly a comma and a
string literal, until the closing bracket.  `fuel` bounds the number of
remaining elements; callers pass the input length, which always suffices
because each element consumes at least one character. -/
def parseMore : Nat → List Char → Option (List (List Char) × List Char)
  | 0, _ => none
  | fuel + 1, cs =>
    match skipWs cs with
    | ']' :: rest => some ([], rest)
    | ',' :: rest =>
      match skipWs rest with
      | '"' :: rest2 =>
        match parseStringBody (rest2.length + 1) rest2 with
        | some (s, rest3) =>
          match parseMore fuel rest3 with
          | some (items, rest4) => some (s :: items, rest4)
          | none => none
        | none => none
      | _ => none
    | _ => none

/-- A JSON array of string literals, after the opening bracket. -/
def parseArray (fuel : Nat) (cs : List Char) : Option (List (List Char) × List Char) :=
  match skipWs cs with
  | ']' :: rest => some ([], rest)
  | '"' :: rest =>
    match parseStringBody (rest.length + 1) rest with
    | some (s, rest2) =>
      match parseMore fuel rest2 with
      | some (items, rest3) => some (s :: items, rest3)
      | none => none
    | none => none
  | _ => none

/-- Model of `json.loads(okr[4])` as used by the application (`src/myokr_app.py:498`),
restricted to documents denoting arrays of strings — the only shape this
application ever stores; any other document yields `none`.  Like
`json.loads`, trailing non-whitespace is rejected. -/
def json_loads_list (s : String) : Option (List String) :=
  match skipWs s.data with
  | '[' :: rest =>
    match parseArray (rest.length + 1) rest with
    | some (items, rest2) =>
      if skipWs rest2 = [] then some (items.map String.mk) else none
    | none => none
  | _ => none

example : json_dumps ["A", "B"] = "[\"A\", \"B\"]" := by decide
example : json_dumps [] = "[]" := by decide
example : json_loads_list "[\"A\", \"B\"]" = some ["A", "B"] := by decide
example : json_loads_list "[]" = some [] := by decide
example : json_loads_list (json_dumps ["a\"b\\c"]) = some ["a\"b\\c"] := by decide
example : json_loads_list (json_dumps ["\n\t\x08\x0c\r\x01"]) = some ["\n\t\x08\x0c\r\x01"] := by decide
example : json_loads_list (json_dumps ["é✓"]) = some ["é✓"] := by decide
example : json_loads_list (json_dumps ["𝄞"]) = some ["𝄞"] := by decide
example : json_dumps ["é"] = "[\"\\u00e9\"]" := by decide

/-! ### Round-trip of the key-results codec -/

theorem hexVal_hexDigit : ∀ m < 16, hexVal (hexDigit m) = some m := by decide

theorem hexVal_hexDigit_div_mod (n k : Nat) :
    hexVal (hexDigit (n / k % 16)) = some (n / k % 16) :=
  hexVal_hexDigit _ (Nat.mod_lt _ (by norm_num))

theorem hexVal_hexDigit_mod (n : Nat) :
    hexVal (hexDigit (n % 16)) = some (n % 16) :=
  hexVal_hexDigit _ (Nat.mod_lt _ (by norm_num))

theorem scanTok_u (n : Nat) (hn : n < 65536) (hs : n < 55296 ∨ 57343 < n)
    (rest : List Char) :
    scanTok ('\\' :: 'u' :: (hex4 n ++ rest)) = some (some (Char.ofNat n), rest) := by
  have e : n / 4096 % 16 * 4096 + n / 256 % 16 * 256 + n / 16 % 16 * 16 + n % 16 = n := by
    omega
  have c1 : ¬(55296 ≤ n ∧ n ≤ 56319) := by omega
  have c2 : ¬(56320 ≤ n ∧ n ≤ 57343) := by omega
  simp [scanTok, hex4, hexVal_hexDigit_div_mod, hexVal_hexDigit_mod, e, c1, c2]

theorem scanTok_u2 (n m : Nat) (hn1 : 55296 ≤ n) (hn2 : n ≤ 56319)
    (hm1 : 56320 ≤ m) (hm2 : m ≤ 57343) (rest : List Char) :
    scanTok ('\\' :: 'u' :: (hex4 n ++ ('\\' :: 'u' :: (hex4 m ++ rest)))) =
      some (some (Char.ofNat (65536 + (n - 55296) * 1024 + (m - 56320))), rest) := by
  have en : n / 4096 % 16 * 4096 + n / 256 % 16 * 256 + n / 16 % 16 * 16 + n % 16 = n := by
    omega
  have em : m / 4096 % 16 * 4096 + m / 256 % 16 * 256 + m / 16 % 16 * 16 + m % 16 = m := by
    omega
  have c1 : 55296 ≤ n ∧ n ≤ 56319 := ⟨hn1, hn2⟩
  have c2 : 56320 ≤ m ∧ m ≤ 57343 := ⟨hm1, hm2⟩
  simp [scanTok, hex4, hexVal_hexDigit_div_mod, hexVal_hexDigit_mod, en, em, c1, c2]

theorem scanTok_encodeChar (c : Char) (rest : List Char) :
    scanTok (encodeChar c ++ rest) = some (some c, rest) := by
  have hv : c.toNat < 55296 ∨ (57343 < c.toNat ∧ c.toNat < 1114112) := c.valid
  by_cases h1 : c = '"'
  · subst h1; simp [encodeChar, scanTok]
  by_cases h2 : c = '\\'
  · subst h2; simp [encodeChar, scanTok]
  by_cases h3 : c = '\x08'
  · subst h3; simp [encodeChar, scanTok]
  by_cases h4 : c = '\t'
  · subst h4; simp [encodeChar, scanTok]
  by_cases h5 : c = '\n'
  · subst h5; simp [encodeChar, scanTok]
  by_cases h6 : c = '\x0c'
  · subst h6; simp [encodeChar, scanTok]
  by_cases h7 : c = '\r'
  · subst h7; simp [encodeChar, scanTok]
  by_cases h8 : c.toNat < 32
  · have hs : c.toNat < 55296 ∨ 57343 < c.toNat := by omega
    simp only [encodeChar, h1, h2, h3, h4, h5, h6, h7, if_neg, if_false, ite_false, h8,
      if_true, ite_true, List.cons_append]
    rw [scanTok_u c.toNat (by omega) hs rest, Char.ofNat_toNat]
  by_cases h9 : c.toNat ≤ 126
  · have hq : ¬(c = '"') := h1
    have hb : ¬(c = '\\') := h2
    simp [encodeChar, h1, h2, h3, h4, h5, h6, h7, h8, h9, scanTok]
  by_cases h10 : c.toNat < 65536
  · have hs : c.toNat < 55296 ∨ 57343 < c.toNat := by omega
    simp only [encodeChar, h1, h2, h3, h4, h5, h6, h7, h8, h9, h10, if_neg, if_false,
      ite_false, if_true, ite_true, List.cons_append]
    rw [scanTok_u c.toNat h10 hs rest, Char.ofNat_toNat]
  · have hlt : c.toNat < 1114112 := by omega
    have hge : 65536 ≤ c.toNat := by omega
    simp only [encodeChar, h1, h2, h3, h4, h5, h6, h7, h8, h9, h10, if_neg, if_false,
      ite_false, if_true, ite_true, List.cons_append, List.append_assoc]
    rw [scanTok_u2 (55296 + (c.toNat - 65536) / 1024) (56320 + (c.toNat - 65536) % 1024)
      (by omega) (by omega) (by omega) (by omega) rest]
    have e2 : 65536 + (55296 + (c.toNat - 65536) / 1024 - 55296) * 1024 +
        (56320 + (c.toNat - 65536) % 1024 - 56320) = c.toNat := by omega
    rw [e2, Char.ofNat_toNat]

theorem one_le_length_encodeChar (c : Char) : 1 ≤ (encodeChar c).length := by
  by_cases h1 : c = '"'
  · simp [encodeChar, h1]
  by_cases h2 : c = '\\'
  · simp [encodeChar, h1, h2]
  by_cases h3 : c = '\x08'
  · simp [encodeChar, h1, h2, h3]
  by_cases h4 : c = '\t'
  · simp [encodeChar, h1, h2, h3, h4]
  by_cases h5 : c = '\n'
  · simp [encodeChar, h1, h2, h3, h4, h5]
  by_cases h6 : c = '\x0c'
  · simp [encodeChar, h1, h2, h3, h4, h5, h6]
  by_cases h7 : c = '\r'
  · simp [encodeChar, h1, h2, h3, h4, h5, h6, h7]
  by_cases h8 : c.toNat < 32
  · simp [encodeChar, h1, h2, h3, h4, h5, h6, h7, h8, hex4]
  by_cases h9 : c.toNat ≤ 126
  · simp [encodeChar, h1, h2, h3, h4, h5, h6, h7, h8, h9]
  by_cases h10 : c.toNat < 65536
  · simp [encodeChar, h1, h2, h3, h4, h5, h6, h7, h8, h9, h10, hex4]
  · simp [encodeChar, h1, h2, h3, h4, h5, h6, h7, h8, h9, h10, hex4]

theorem length_le_flatMap_encodeChar (s : List Char) :
    s.length ≤ (s.flatMap encodeChar).length := by
  induction s with
  | nil => simp
  | cons c cs ih =>
    have h1 := one_le_length_encodeChar c
    simp only [List.flatMap_cons, List.length_append, List.length_cons]
    omega

theorem parseStringBody_encode (s : List Char) (rest : List Char) (fuel : Nat)
    (h : s.length < fuel) :
    parseStringBody fuel (s.flatMap encodeChar ++ '"' :: rest) = some (s, rest) := by
  induction s generalizing fuel with
  | nil =>
    cases fuel with
    | zero => omega
    | succ f => simp [parseStringBody, scanTok]
  | cons c cs ih =>
    cases fuel with
    | zero => omega
    | succ f =>
      have e1 : (c :: cs).flatMap encodeChar ++ '"' :: rest
          = encodeChar c ++ (cs.flatMap encodeChar ++ '"' :: rest) := by
        simp [List.flatMap_cons, List.append_assoc]
      rw [e1]
      simp only [parseStringBody, scanTok_encodeChar]
      rw [ih f (by simp at h; omega)]
      rfl

theorem length_le_encodeItemsTail (items : List (List Char)) :
    items.length ≤ (encodeItemsTail items).length := by
  induction items with
  | nil => simp [encodeItemsTail]
  | cons x xs ih =>
    simp only [encodeItemsTail, List.flatMap_cons, List.length_append, List.length_cons,
      encodeString, List.length_append] at *
    omega

theorem parseMore_cons (f : Nat) (t : List Char) :
    parseMore (f + 1) (',' :: ' ' :: '"' :: t) =
      match parseStringBody (t.length + 1) t with
      | some (s, rest3) =>
        match parseMore f rest3 with
        | some (items, rest4) => some (s :: items, rest4)
        | none => none
      | none => none := by
  simp [parseMore, skipWs, isWs]

theorem parseMore_encode (items : List (List Char)) (rest : List Char) (fuel : Nat)
    (h : items.length < fuel) :
    parseMore fuel (encodeItemsTail items ++ ']' :: rest) = some (items, rest) := by
  induction items generalizing fuel with
  | nil =>
    cases fuel with
    | zero => omega
    | succ f => simp [parseMore, encodeItemsTail, skipWs, isWs]
  | cons x xs ih =>
    cases fuel with
    | zero => omega
    | succ f =>
      have hb := length_le_flatMap_encodeChar x
      have hih : parseMore f (encodeItemsTail xs ++ ']' :: rest) = some (xs, rest) :=
        ih f (by simp at h; omega)
      have e1 : encodeItemsTail (x :: xs) ++ ']' :: rest =
          ',' :: ' ' :: '"' ::
            (x.flatMap encodeChar ++ '"' :: (encodeItemsTail xs ++ ']' :: rest)) := by
        simp [encodeItemsTail, encodeString, List.append_assoc]
      rw [e1, parseMore_cons]
      rw [parseStringBody_encode x _ _
        (by simp only [List.length_append, List.length_cons]; omega)]
      simp [hih]

theorem skipWs_cons_not (c : Char) (t : List Char) (h : isWs c = false) :
    skipWs (c :: t) = c :: t := by
  simp [skipWs, h]

theorem mkData (s : String) : String.mk s.data = s := by
  cases s
  rfl

theorem json_loads_dumps (l : List String) : json_loads_list (json_dumps l) = some l := by
  cases l with
  | nil => rfl
  | cons x xs =>
    have hb := length_le_flatMap_encodeChar x.data
    have ht := length_le_encodeItemsTail (xs.map String.data)
    simp only [json_dumps, dumpsChars, json_loads_list, encodeString, List.map_cons,
      List.cons_append, List.append_assoc, List.nil_append]
    rw [skipWs_cons_not '[' _ rfl]
    simp only [parseArray]
    rw [skipWs_cons_not '"' _ rfl]
    simp only [List.length_cons]
    rw [parseStringBody_encode x.data _ _
      (by simp only [List.length_append, List.length_cons]; omega)]
    simp only [List.length_append, List.length_cons]
    rw [parseMore_encode (xs.map String.data) [] _ (by omega)]
    simp [mkData, skipWs]
    exact (List.map_congr_left fun s _ => mkData s).trans (List.map_id xs)

/-! ### Data model

One record structure per SQLite table created by `init_database`
(`src/myokr_app.py:12-87`).  `id` columns are `INTEGER PRIMARY KEY
AUTOINCREMENT`: every stored id is at least 1 and unique within its table.
Nullable foreign keys are `Option Int`; `progress REAL` is `ℚ`; date columns
are kept as opaque strings.  The `created_at TIMESTAMP` columns (filled by
the store clock and never read by any logic under verification) are
omitted. -/

structure UserRec where
  id : Int
  username : String
  email : String
  password_hash : String
  role : String
  department_id : Option Int
  team_id : Option Int
  deriving Repr, DecidableEq

structure OrgRec where
  id : Int
  name : String
  description : String
  deriving Repr, DecidableEq

structure DeptRec where
  id : Int
  name : String
  description : String
  organization_id : Option Int
  deriving Repr, DecidableEq

structure TeamRec where
  id : Int
  name : String
  description : String
  department_id : Option Int
  deriving Repr, DecidableEq

/-- A row of the `okrs` table.  `key_results` holds the serialized JSON text
exactly as stored (`key_results TEXT NOT NULL`). -/
structure OkrRec where
  id : Int
  title : String
  description : String
  objective : String
  key_results : String
  progress : ℚ
  status : String
  team_id : Option Int
  assigned_user_id : Option Int
  created_by : Option Int
  start_date : String
  end_date : String
  deriving Repr, DecidableEq

/-- The SQLite database `myokr.db`, with the autoincrement counters of the
two tables rows get inserted into by the code under verification. -/
structure Store where
  users : List UserRec
  organizations : List OrgRec
  departments : List DeptRec
  teams : List TeamRec
  okrs : List OkrRec
  next_user_id : Int
  next_okr_id : Int
  deriving Repr, DecidableEq

/-! ### Identity functions (`src/myokr_app.py:89-133`) -/

/-- Model of `hash_password` (`src/myokr_app.py:90`): it delegates to
`hashlib.sha256(password.encode()).hexdigest()`; the hash primitive is
external library code and is taken as the parameter `sha256`. -/
def hash_password (sha256 : String → String) (password : String) : String :=
  sha256 password

/-- Model of `verify_password` (`src/myokr_app.py:93`). -/
def verify_password (sha256 : String → String) (password hashed : String) : Bool :=
  hash_password sha256 password == hashed

/-- The row inserted into `users` by `create_user`: the supplied fields, the
hashed credential over the password, and the next autoincrement id. -/
def new_user (sha256 : String → String) (s : Store)
    (username email password role : String) (department_id team_id : Option Int) :
    UserRec :=
  { id := s.next_user_id, username := username, email := email,
    password_hash := hash_password sha256 password, role := role,
    department_id := department_id, team_id := team_id }

/-- Model of `create_user` (`src/myokr_app.py:96-110`).  The `INSERT` succeeds unless
one of the `UNIQUE` constraints on `users.username` and `users.email`
(`src/myokr_app.py:20-21`) is violated, in which case sqlite3 raises
`IntegrityError`, which the function catches and converts to `False`; the
transaction is not committed, so the store is unchanged. -/
def create_user (sha256 : String → String) (s : Store)
    (username email password role : String) (department_id team_id : Option Int) :
    Bool × Store :=
  if s.users.any (fun u => u.username == username || u.email == email) then
    (false, s)
  else
    (true,
      { s with
        users := s.users ++
          [new_user sha256 s username email password role department_id team_id],
        next_user_id := s.next_user_id + 1 })

/-- The dictionary returned by a successful `authenticate_user`. -/
structure UserCtx where
  id : Int
  username : String
  email : String
  role : String
  department_id : Option Int
  team_id : Option Int
  deriving Repr, DecidableEq

/-- Model of `authenticate_user` (`src/myokr_app.py:112-133`): look up the row with
the given username (`fetchone` on a `UNIQUE` column — the first match);
`if user and verify_password(...)` return the context dictionary, in every
other case fall through to the single `return None`. -/
def authenticate_user (sha256 : String → String) (s : Store)
    (username password : String) : Option UserCtx :=
  match s.users.find? (fun u => u.username == username) with
  | some u =>
    if verify_password sha256 password u.password_hash then
      some { id := u.id, username := u.username, email := u.email, role := u.role,
             department_id := u.department_id, team_id := u.team_id }
    else none
  | none => none

/-! ### Hierarchy queries (`src/myokr_app.py:136-172`) -/

/-- Python truthiness of an optional integer argument: `None` and `0` are
falsy.  This is how `get_departments`, `get_teams` and `get_okrs` decide
whether a filter was supplied (`if org_id:`, `if department_id:`,
`if team_id:` / `elif user_id:`). -/
def truthy : Option Int → Bool
  | none => false
  | some n => n != 0

/-- Model of `get_organizations` (`src/myokr_app.py:136`). -/
def get_organizations (s : Store) : List OrgRec :=
  s.organizations

/-- Model of `get_departments` (`src/myokr_app.py:144-153`). -/
def get_departments (s : Store) (org_id : Option Int) : List DeptRec :=
  if truthy org_id then s.departments.filter (fun d => d.organization_id == org_id)
  else s.departments

/-- Model of `get_teams` (`src/myokr_app.py:155-164`). -/
def get_teams (s : Store) (department_id : Option Int) : List TeamRec :=
  if truthy department_id then s.teams.filter (fun t => t.department_id == department_id)
  else s.teams

/-! ### OKR repository (`src/myokr_app.py:174-241`) -/

/-- The row inserted into `okrs` by `create_okr`: the supplied fields, the
key results serialized with `json.dumps`, the column defaults
`progress = 0` and `status = 'Not Started'` (the `INSERT` names neither
column, DDL `src/myokr_app.py:72-73`), and the next autoincrement id. -/
def new_okr (s : Store) (title description objective : String)
    (key_results : List String) (team_id assigned_user_id created_by : Int)
    (start_date end_date : String) : OkrRec :=
  { id := s.next_okr_id, title := title, description := description,
    objective := objective, key_results := json_dumps key_results,
    progress := 0, status := "Not Started", team_id := some team_id,
    assigned_user_id := some assigned_user_id, created_by := some created_by,
    start_date := start_date, end_date := end_date }

/-- Model of `create_okr` (`src/myokr_app.py:175-188`): a single `INSERT` that
serializes the key results with `json.dumps` and supplies neither `progress`
nor `status`, so the row receives the column defaults of the DDL
(`progress REAL DEFAULT 0`, `status TEXT DEFAULT 'Not Started'`,
`src/myokr_app.py:72-73`) and the next autoincrement id. -/
def create_okr (s : Store) (title description objective : String)
    (key_results : List String) (team_id assigned_user_id created_by : Int)
    (start_date end_date : String) : Store :=
  { s with
    okrs := s.okrs ++ [new_okr s title description objective key_results team_id
      assigned_user_id created_by start_date end_date],
    next_okr_id := s.next_okr_id + 1 }

/-- A row produced by the `SELECT o.*, u.username, c.username, t.name` join
of `get_okrs`: the `okrs` columns followed by the three joined display
columns (`NULL` when the `LEFT JOIN` finds no match). -/
structure OkrRow where
  id : Int
  title : String
  description : String
  objective : String
  key_results : String
  progress : ℚ
  status : String
  team_id : Option Int
  assigned_user_id : Option Int
  created_by : Option Int
  start_date : String
  end_date : String
  assigned_user : Option String
  created_by_user : Option String
  team_name : Option String
  deriving Repr, DecidableEq

/-- The three `LEFT JOIN`s of `get_okrs`.  The join keys `users.id` and
`teams.id` are primary keys, hence unique, so each `okrs` row yields exactly
one output row and the joined value is the first (only) match; a `NULL`
foreign key matches nothing. -/
def joinOkr (s : Store) (o : OkrRec) : OkrRow :=
  { id := o.id, title := o.title, description := o.description,
    objective := o.objective, key_results := o.key_results,
    progress := o.progress, status := o.status, team_id := o.team_id,
    assigned_user_id := o.assigned_user_id, created_by := o.created_by,
    start_date := o.start_date, end_date := o.end_date,
    assigned_user :=
      (s.users.find? (fun u => some u.id == o.assigned_user_id)).map (fun u => u.username),
    created_by_user :=
      (s.users.find? (fun u => some u.id == o.created_by)).map (fun u => u.username),
    team_name :=
      (s.teams.find? (fun t => some t.id == o.team_id)).map (fun t => t.name) }

/-- Model of `get_okrs` (`src/myokr_app.py:190-223`): `if team_id:` filters by
`o.team_id = ?`, `elif user_id:` filters by `o.assigned_user_id = ?`, else
no `WHERE` clause; all three branches apply the same joins.  SQL `=` against
a `NULL` column is not satisfied, which `==` on `Option` reproduces. -/
def get_okrs (s : Store) (team_id user_id : Option Int) : List OkrRow :=
  if truthy team_id then
    (s.okrs.filter (fun o => o.team_id == team_id)).map (joinOkr s)
  else if truthy user_id then
    (s.okrs.filter (fun o => o.assigned_user_id == user_id)).map (joinOkr s)
  else
    s.okrs.map (joinOkr s)

/-- Model of `update_okr_progress` (`src/myokr_app.py:225-234`):
`UPDATE okrs SET progress = ?, status = ? WHERE id = ?` — the submitted
values are stored verbatim in every row whose id matches; there is no
actor argument, no permission check and no range check. -/
def update_okr_progress (s : Store) (okr_id : Int) (progress : ℚ) (status : String) :
    Store :=
  { s with okrs := s.okrs.map (fun o =>
      if o.id == okr_id then { o with progress := progress, status := status } else o) }

/-- Model of `delete_okr` (`src/myokr_app.py:236-241`):
`DELETE FROM okrs WHERE id = ?` — removes every row whose id matches; there
is no actor argument and no permission check. -/
def delete_okr (s : Store) (okr_id : Int) : Store :=
  { s with okrs := s.okrs.filter (fun o => !(o.id == okr_id)) }

/-- The "Create OKR" submit handler of `show_my_okrs`
(`src/myokr_app.py:471-481`): `create_okr` runs only under
`if title and objective and key_results and selected_team and selected_user:`,
otherwise an error is shown and nothing is inserted.  `key_results` collects
the non-empty key-result inputs; `selected_team`/`selected_user` stand for
the selectbox choices resolved through the `team_options`/`user_options`
dictionaries to row ids — they are `none` when no team exists or the chosen
team has no user (the displayed names are non-empty whenever present, since
team creation is guarded by `if team_name:` and usernames are chosen at
registration, so Python truthiness of the selection coincides with
`Option.isSome`).  Both date widgets always yield a date.  The Boolean
result records whether the OKR was created (`st.success`) or rejected with
the validation error message (`st.error`). -/
def create_okr_submit (s : Store) (title description objective : String)
    (key_results : List String) (selected_team selected_user : Option Int)
    (actor : Int) (start_date end_date : String) : Bool × Store :=
  match selected_team, selected_user with
  | some team_id, some user_id =>
    if title != "" && objective != "" && !key_results.isEmpty then
      (true, create_okr s title description objective key_results team_id user_id actor
        start_date end_date)
    else
      (false, s)
  | _, _ => (false, s)

/-! ### Analytics (`src/myokr_app.py:678-732`) -/

/-- The progress-distribution binning of `show_analytics`
(`src/myokr_app.py:700-702`):
`pd.cut(df['progress'], bins=[0, 25, 50, 75, 100], labels=[...])` followed
by `value_counts()`.  With `pd.cut`'s defaults (`right=True`,
`include_lowest=False`) the four intervals are `(0,25]`, `(25,50]`,
`(50,75]`, `(75,100]`; a progress value outside every interval — in
particular exactly `0` — is binned as `NaN` and not counted by
`value_counts`. -/
def progressBucketCounts (progresses : List ℚ) : Nat × Nat × Nat × Nat :=
  ((progresses.filter (fun p => decide (0 < p ∧ p ≤ 25))).length,
   (progresses.filter (fun p => decide (25 < p ∧ p ≤ 50))).length,
   (progresses.filter (fun p => decide (50 < p ∧ p ≤ 75))).length,
   (progresses.filter (fun p => decide (75 < p ∧ p ≤ 100))).length)

/-- The progress distribution computed by the analytics view over the full
OKR set (`all_okrs = get_okrs()`). -/
def progress_distribution (s : Store) : Nat × Nat × Nat × Nat :=
  progressBucketCounts ((get_okrs s none none).map (fun r => r.progress))

/-- The clamp function stated by the spec ("the persisted progress is
`clamp(p, 0, 100)`").  It appears nowhere in the code; it is defined here
only to compare the code's behaviour against the spec's words. -/
def spec_clamp (p : ℚ) : ℚ :=
  max 0 (min p 100)

/-! ### Concrete states used by witnesses and counterexamples -/

/-- The empty database, as `init_database` leaves a fresh `myokr.db`
(autoincrement counters start at 1). -/
def emptyStore : Store :=
  { users := [], organizations := [], departments := [], teams := [], okrs := [],
    next_user_id := 1, next_okr_id := 1 }

/-- A fresh database with three registered users — alice (id 1), bob (id 2)
and carol (id 3), all with role "User" — and one OKR (id 1, progress 0)
assigned to alice and created by bob, built through the application's own
operations (the hash primitive is irrelevant here and instantiated with the
identity). -/
def sampleStore : Store :=
  let sha := fun p : String => p
  let s1 := (create_user sha emptyStore "alice" "alice@x.com" "pw1" "User" none (some 1)).2
  let s2 := (create_user sha s1 "bob" "bob@x.com" "pw2" "User" none (some 1)).2
  let s3 := (create_user sha s2 "carol" "carol@x.com" "pw3" "User" none (some 2)).2
  create_okr s3 "Ship v1" "" "Launch the product" ["Release beta"] 1 1 2
    "2024-01-01" "2024-06-30"

/-! ### Shared helper lemmas -/

theorem update_okr_progress_mem (s : Store) (okr_id : Int) (p : ℚ) (st : String) :
    ∀ o ∈ (update_okr_progress s okr_id p st).okrs, o.id = okr_id →
      o.progress = p ∧ o.status = st := by
  intro o hmem hid
  simp only [update_okr_progress, List.mem_map] at hmem
  obtain ⟨o0, _, heq⟩ := hmem
  by_cases h : (o0.id == okr_id) = true
  · rw [← heq]
    simp [h]
  · rw [← heq] at hid
    simp [h] at hid
    exact absurd hid (by simpa using h)

theorem update_okr_progress_ids (s : Store) (okr_id : Int) (p : ℚ) (st : String) :
    (update_okr_progress s okr_id p st).okrs.map (fun o => o.id) =
      s.okrs.map (fun o => o.id) := by
  simp only [update_okr_progress, List.map_map]
  refine List.map_congr_left (fun o _ => ?_)
  simp only [Function.comp]
  split <;> rfl

/-! ### The claims -/

/-- C9: every OKR record inserted by `create_okr` has initial progress `0`
and initial status `"Not Started"`: the operation accepts no progress or
status argument, its `INSERT` omits both columns, and the DDL defaults
(`progress REAL DEFAULT 0`, `status TEXT DEFAULT 'Not Started'`) fill them
in, for every input. -/
theorem c9_create_okr_defaults (s : Store) (title description objective : String)
    (key_results : List String) (team_id assigned_user_id created_by : Int)
    (start_date end_date : String) :
    ∃ o : OkrRec,
      (create_okr s title description objective key_results team_id assigned_user_id
          created_by start_date end_date).okrs = s.okrs ++ [o]
      ∧ o.progress = 0 ∧ o.status = "Not Started" :=
  ⟨_, rfl, rfl, rfl⟩

/-- C10: calling `get_departments`, `get_teams` or `get_okrs` with a filter
id equal to `0` returns the full unfiltered list — Python's `if org_id:`
treats `0` like an absent filter — not the subset of records whose foreign
key equals `0`. -/
theorem c10_zero_filter_unfiltered (s : Store) :
    get_departments s (some 0) = get_departments s none
    ∧ get_teams s (some 0) = get_teams s none
    ∧ get_okrs s (some 0) none = get_okrs s none none
    ∧ get_okrs s none (some 0) = get_okrs s none none := by
  refine ⟨?_, ?_, ?_, ?_⟩ <;> simp [get_departments, get_teams, get_okrs, truthy]

/-- C7: for every team id `t` (team ids are autoincrement values, hence
nonzero) and every store, `get_okrs` filtered by team `t` returns exactly
the unfiltered `get_okrs` restricted to rows whose team equals `t` — the
same rows in the same order, with no omissions and no duplicates. -/
theorem c7_listForTeam_eq_filter_listAll (s : Store) (t : Int) (ht : t ≠ 0) :
    get_okrs s (some t) none =
      (get_okrs s none none).filter (fun r => r.team_id == some t) := by
  have htr : truthy (some t) = true := by simp [truthy, ht]
  have hfn : truthy none = false := rfl
  simp only [get_okrs, htr, hfn, Bool.false_eq_true, if_true, if_false]
  rw [List.filter_map]
  exact congrArg (List.map (joinOkr s)) (List.filter_congr fun o _ => rfl)

/-- C7 witness: instantiation at team id 1 in the concrete `sampleStore`. -/
theorem c7_listForTeam_eq_filter_listAll_witness :
    get_okrs sampleStore (some 1) none =
      (get_okrs sampleStore none none).filter (fun r => r.team_id == some 1) :=
  c7_listForTeam_eq_filter_listAll sampleStore 1 (by decide)

/-- C1 counterexample: the claim says the progress persisted by
`update_okr_progress` for a stored OKR equals `clamp(p, 0, 100)`.
`sampleStore` holds OKR id 1; submitting `p = 150` persists `150`, whereas
the claim requires `spec_clamp 150 = 100` — the function stores the
submitted value verbatim, without clamping. -/
theorem c1_counterexample :
    (sampleStore.okrs.map fun o => o.id) = [1]
    ∧ ((update_okr_progress sampleStore 1 150 "In Progress").okrs.map fun o => o.progress)
        = [150]
    ∧ spec_clamp 150 = 100
    ∧ (150 : ℚ) ≠ spec_clamp 150 := by
  decide

/-- C1 (amended): `update_okr_progress` persists the submitted progress and
status verbatim on every row whose id matches (the ids themselves are
unchanged, so the targeted OKR is still present); no clamping occurs, so the
persisted value agrees with the spec's `clamp(p, 0, 100)` exactly on
submissions already lying in `[0, 100]` — in particular for every value the
UI slider (range 0–100) can submit. -/
theorem c1_update_persists_submitted_progress (s : Store) (okr_id : Int) (p : ℚ)
    (st : String) :
    (∀ o ∈ (update_okr_progress s okr_id p st).okrs, o.id = okr_id →
      o.progress = p ∧ o.status = st)
    ∧ ((update_okr_progress s okr_id p st).okrs.map (fun o => o.id) =
        s.okrs.map (fun o => o.id))
    ∧ (0 ≤ p → p ≤ 100 → spec_clamp p = p) := by
  refine ⟨update_okr_progress_mem s okr_id p st, update_okr_progress_ids s okr_id p st,
    fun h0 h100 => ?_⟩
  simp only [spec_clamp]
  rw [min_eq_left h100, max_eq_right h0]

/-- C1 witness: instantiation at OKR 1 of `sampleStore` with the in-range
submission `p = 50`. -/
theorem c1_update_persists_submitted_progress_witness :
    (∀ o ∈ (update_okr_progress sampleStore 1 50 "On Hold").okrs, o.id = 1 →
      o.progress = 50 ∧ o.status = "On Hold")
    ∧ ((update_okr_progress sampleStore 1 50 "On Hold").okrs.map (fun o => o.id) =
        sampleStore.okrs.map (fun o => o.id))
    ∧ ((0 : ℚ) ≤ 50 → (50 : ℚ) ≤ 100 → spec_clamp 50 = 50) :=
  c1_update_persists_submitted_progress sampleStore 1 50 "On Hold"

/-- C2 counterexample: the claim says an actor with role `User` who is
neither assignee nor creator always receives an `AuthorizationError` and the
OKR record is left unchanged.  In `sampleStore`, carol (id 3, role `"User"`)
is neither the assignee (alice, id 1) nor the creator (bob, id 2) of OKR 1;
yet `update_okr_progress` and `delete_okr` accept no actor argument and
check nothing: the delete issued from carol's session removes the OKR and
the update overwrites its progress — no error, record changed. -/
theorem c2_counterexample :
    (sampleStore.users.map fun u => (u.id, u.role))
        = [(1, "User"), (2, "User"), (3, "User")]
    ∧ (sampleStore.okrs.map fun o => (o.id, o.assigned_user_id, o.created_by))
        = [(1, some 1, some 2)]
    ∧ (delete_okr sampleStore 1).okrs = []
    ∧ ((update_okr_progress sampleStore 1 7 "On Hold").okrs.map fun o => o.progress)
        = [7] := by
  decide

/-- C2 (amended): `update_okr_progress` and `delete_okr` take no acting-user
argument and perform no authorization check: for any caller whatsoever,
delete removes exactly the rows with the given id (every other row
survives), and update overwrites progress and status of every row with the
given id.  Role-based gating exists only in the UI, which offers these
buttons solely on OKRs assigned to the session user. -/
theorem c2_mutations_have_no_authorization (s : Store) (okr_id : Int) (p : ℚ)
    (st : String) :
    (∀ o ∈ (delete_okr s okr_id).okrs, o.id ≠ okr_id)
    ∧ (∀ o ∈ s.okrs, o.id ≠ okr_id → o ∈ (delete_okr s okr_id).okrs)
    ∧ (∀ o ∈ (update_okr_progress s okr_id p st).okrs, o.id = okr_id →
        o.progress = p ∧ o.status = st) := by
  refine ⟨?_, ?_, update_okr_progress_mem s okr_id p st⟩
  · intro o hmem
    simp only [delete_okr, List.mem_filter] at hmem
    simpa using hmem.2
  · intro o hmem hne
    simp only [delete_okr, List.mem_filter]
    exact ⟨hmem, by simpa using hne⟩

/-- C2 witness: instantiation at OKR 1 of `sampleStore`. -/
theorem c2_mutations_have_no_authorization_witness :
    (∀ o ∈ (delete_okr sampleStore 1).okrs, o.id ≠ 1)
    ∧ (∀ o ∈ sampleStore.okrs, o.id ≠ 1 → o ∈ (delete_okr sampleStore 1).okrs)
    ∧ (∀ o ∈ (update_okr_progress sampleStore 1 9 "On Hold").okrs, o.id = 1 →
        o.progress = 9 ∧ o.status = "On Hold") :=
  c2_mutations_have_no_authorization sampleStore 1 9 "On Hold"

theorem decide_bucket_true {a b p : ℚ} (h1 : a < p) (h2 : p ≤ b) :
    decide (a < p ∧ p ≤ b) = true := by
  simp [h1, h2]

theorem decide_bucket_false_low {a b p : ℚ} (h : p ≤ a) :
    decide (a < p ∧ p ≤ b) = false := by
  simp only [decide_eq_false_iff_not, not_and]
  intro hg
  exact absurd hg (not_lt.mpr h)

theorem decide_bucket_false_high {a b p : ℚ} (h : b < p) :
    decide (a < p ∧ p ≤ b) = false := by
  simp only [decide_eq_false_iff_not, not_and]
  intro _ hl
  exact absurd h (not_lt.mpr hl)

/-- The four bucket filters of the analytics binning, together with the
values binned as `NaN` at exactly `0`, partition a progress list lying in
`[0, 100]`: the bucket counts sum to the number of nonzero entries. -/
theorem bucket_filter_sum (l : List ℚ) (h : ∀ p ∈ l, 0 ≤ p ∧ p ≤ 100) :
    (l.filter fun p => decide ((0 : ℚ) < p ∧ p ≤ 25)).length
      + (l.filter fun p => decide ((25 : ℚ) < p ∧ p ≤ 50)).length
      + (l.filter fun p => decide ((50 : ℚ) < p ∧ p ≤ 75)).length
      + (l.filter fun p => decide ((75 : ℚ) < p ∧ p ≤ 100)).length
      = (l.filter fun p => decide ((0 : ℚ) < p)).length := by
  induction l with
  | nil => rfl
  | cons p t ih =>
    obtain ⟨h0, h100⟩ := h p (List.mem_cons_self p t)
    have ht := ih (fun q hq => h q (List.mem_cons_of_mem p hq))
    rcases eq_or_lt_of_le h0 with e0 | g0
    · have f1 : decide ((0 : ℚ) < p ∧ p ≤ 25) = false :=
        decide_bucket_false_low (le_of_eq e0.symm)
      have f2 : decide ((25 : ℚ) < p ∧ p ≤ 50) = false :=
        decide_bucket_false_low (by rw [← e0]; norm_num)
      have f3 : decide ((50 : ℚ) < p ∧ p ≤ 75) = false :=
        decide_bucket_false_low (by rw [← e0]; norm_num)
      have f4 : decide ((75 : ℚ) < p ∧ p ≤ 100) = false :=
        decide_bucket_false_low (by rw [← e0]; norm_num)
      have f5 : decide ((0 : ℚ) < p) = false := decide_eq_false (by rw [← e0]; exact lt_irrefl 0)
      simp only [List.filter_cons, f1, f2, f3, f4, f5, Bool.false_eq_true, if_false,
        List.length_cons]
      omega
    rcases le_or_lt p 25 with l25 | g25
    · have f1 : decide ((0 : ℚ) < p ∧ p ≤ 25) = true := decide_bucket_true g0 l25
      have f2 : decide ((25 : ℚ) < p ∧ p ≤ 50) = false := decide_bucket_false_low l25
      have f3 : decide ((50 : ℚ) < p ∧ p ≤ 75) = false :=
        decide_bucket_false_low (by linarith)
      have f4 : decide ((75 : ℚ) < p ∧ p ≤ 100) = false :=
        decide_bucket_false_low (by linarith)
      have f5 : decide ((0 : ℚ) < p) = true := decide_eq_true g0
      simp only [List.filter_cons, f1, f2, f3, f4, f5, Bool.false_eq_true, if_false, if_true,
        eq_self_iff_true, List.length_cons]
      omega
    rcases le_or_lt p 50 with l50 | g50
    · have f1 : decide ((0 : ℚ) < p ∧ p ≤ 25) = false := decide_bucket_false_high g25
      have f2 : decide ((25 : ℚ) < p ∧ p ≤ 50) = true := decide_bucket_true g25 l50
      have f3 : decide ((50 : ℚ) < p ∧ p ≤ 75) = false := decide_bucket_false_low l50
      have f4 : decide ((75 : ℚ) < p ∧ p ≤ 100) = false :=
        decide_bucket_false_low (by linarith)
      have f5 : decide ((0 : ℚ) < p) = true := decide_eq_true (by linarith)
      simp only [List.filter_cons, f1, f2, f3, f4, f5, Bool.false_eq_true, if_false, if_true,
        eq_self_iff_true, List.length_cons]
      omega
    rcases le_or_lt p 75 with l75 | g75
    · have f1 : decide ((0 : ℚ) < p ∧ p ≤ 25) = false := decide_bucket_false_high (by linarith)
      have f2 : decide ((25 : ℚ) < p ∧ p ≤ 50) = false := decide_bucket_false_high g50
      have f3 : decide ((50 : ℚ) < p ∧ p ≤ 75) = true := decide_bucket_true g50 l75
      have f4 : decide ((75 : ℚ) < p ∧ p ≤ 100) = false := decide_bucket_false_low l75
      have f5 : decide ((0 : ℚ) < p) = true := decide_eq_true (by linarith)
      simp only [List.filter_cons, f1, f2, f3, f4, f5, Bool.false_eq_true, if_false, if_true,
        eq_self_iff_true, List.length_cons]
      omega
    · have f1 : decide ((0 : ℚ) < p ∧ p ≤ 25) = false := decide_bucket_false_high (by linarith)
      have f2 : decide ((25 : ℚ) < p ∧ p ≤ 50) = false := decide_bucket_false_high (by linarith)
      have f3 : decide ((50 : ℚ) < p ∧ p ≤ 75) = false := decide_bucket_false_high g75
      have f4 : decide ((75 : ℚ) < p ∧ p ≤ 100) = true := decide_bucket_true g75 h100
      have f5 : decide ((0 : ℚ) < p) = true := decide_eq_true (by linarith)
      simp only [List.filter_cons, f1, f2, f3, f4, f5, Bool.false_eq_true, if_false, if_true,
        eq_self_iff_true, List.length_cons]
      omega

/-- C3 counterexample: the claim says the four bucket counts always sum to
the number of input OKRs and that an OKR with progress `0` lands in the
first bucket.  `sampleStore` holds exactly one OKR and its progress `0` lies
in `[0, 100]`, yet the binning (`pd.cut` with bin edges `[0,25,50,75,100]`
leaves the lowest edge excluded) counts it in no bucket: all four counts are
`0`, summing to `0 ≠ 1`. -/
theorem c3_counterexample :
    ((get_okrs sampleStore none none).map fun r => r.progress) = [0]
    ∧ progress_distribution sampleStore = (0, 0, 0, 0) := by
  decide

/-- C3 (amended): over any OKR set whose progress values lie in `[0, 100]`
(the empty set included), the four bucket counts of the analytics binning
sum to the number of OKRs with progress strictly greater than `0`: an OKR
with progress exactly `0` falls outside every bucket (`pd.cut`'s lowest bin
edge is exclusive), every other in-range OKR lands in exactly one bucket,
and one with progress `100` is counted in the last bucket. -/
theorem c3_bucket_counts (l : List ℚ) (h : ∀ p ∈ l, 0 ≤ p ∧ p ≤ 100) :
    ((progressBucketCounts l).1 + (progressBucketCounts l).2.1
        + (progressBucketCounts l).2.2.1 + (progressBucketCounts l).2.2.2
      = (l.filter fun p => decide ((0 : ℚ) < p)).length)
    ∧ (l.filter fun p => decide (p = (100 : ℚ))).length
        ≤ (progressBucketCounts l).2.2.2
    ∧ progressBucketCounts [] = (0, 0, 0, 0) := by
  refine ⟨bucket_filter_sum l h, ?_, rfl⟩
  simp only [progressBucketCounts]
  rw [← List.countP_eq_length_filter, ← List.countP_eq_length_filter]
  refine List.countP_mono_left (fun p hp hdec => ?_)
  have hp100 : p = 100 := by simpa using hdec
  simp only [hp100, decide_eq_true_eq]
  norm_num

/-- C3 witness: instantiation at the two-element progress list `[0, 100]`:
the bucket counts are `(0, 0, 0, 1)`, summing to the number of nonzero
entries `1`, with the `100` counted in the last bucket. -/
theorem c3_bucket_counts_witness :
    (((progressBucketCounts [0, 100]).1 + (progressBucketCounts [0, 100]).2.1
        + (progressBucketCounts [0, 100]).2.2.1 + (progressBucketCounts [0, 100]).2.2.2
      = (([0, 100] : List ℚ).filter fun p => decide ((0 : ℚ) < p)).length)
    ∧ (([0, 100] : List ℚ).filter fun p => decide (p = (100 : ℚ))).length
        ≤ (progressBucketCounts [0, 100]).2.2.2
    ∧ progressBucketCounts [] = (0, 0, 0, 0)) :=
  c3_bucket_counts [0, 100] (by decide)

/-- C4: the OKR-creation submit path inserts a record exactly when the
title and the objective are non-empty and at least one key result was
entered, with a resolved team and assignee present (the date widgets always
supply both dates); otherwise it reports the validation error and adds
nothing.  Consequently every OKR stored through this path continues to
carry a key-results field that decodes to a non-empty sequence. -/
theorem c4_create_validation (s : Store) (title description objective : String)
    (key_results : List String) (selected_team selected_user : Option Int)
    (actor : Int) (start_date end_date : String) :
    ((create_okr_submit s title description objective key_results selected_team
        selected_user actor start_date end_date).1 = true
      ↔ title ≠ "" ∧ objective ≠ "" ∧ key_results ≠ []
          ∧ selected_team.isSome ∧ selected_user.isSome)
    ∧ ((create_okr_submit s title description objective key_results selected_team
        selected_user actor start_date end_date).1 = false →
      (create_okr_submit s title description objective key_results selected_team
        selected_user actor start_date end_date).2 = s)
    ∧ ((∀ o ∈ s.okrs, ∃ kr, json_loads_list o.key_results = some kr ∧ kr ≠ []) →
      ∀ o ∈ (create_okr_submit s title description objective key_results selected_team
          selected_user actor start_date end_date).2.okrs,
        ∃ kr, json_loads_list o.key_results = some kr ∧ kr ≠ []) := by
  rcases selected_team with _ | tid
  · simp [create_okr_submit]
  rcases selected_user with _ | uid
  · simp [create_okr_submit]
  by_cases ht : title = "" <;> by_cases ho : objective = "" <;>
    by_cases hk : key_results = [] <;>
    simp [create_okr_submit, create_okr, ht, ho, hk, json_loads_dumps]
  intro hinv o hmem
  rcases hmem with hold | rfl
  · exact hinv o hold
  · exact ⟨key_results, json_loads_dumps key_results, hk⟩

/-- C4 witness: in `sampleStore`, a valid submission (non-empty title and
objective, one key result, resolved team 1 and assignee 1) is accepted, and
an empty-objective submission is rejected; the stored OKRs all decode to
non-empty key-result sequences. -/
theorem c4_create_validation_witness :
    ((create_okr_submit sampleStore "T2" "" "Obj2" ["K1"] (some 1) (some 1) 3
        "2024-02-01" "2024-03-01").1 = true
      ↔ "T2" ≠ "" ∧ "Obj2" ≠ "" ∧ (["K1"] : List String) ≠ []
          ∧ (some (1 : Int)).isSome ∧ (some (1 : Int)).isSome)
    ∧ ((create_okr_submit sampleStore "T2" "" "Obj2" ["K1"] (some 1) (some 1) 3
        "2024-02-01" "2024-03-01").1 = false →
      (create_okr_submit sampleStore "T2" "" "Obj2" ["K1"] (some 1) (some 1) 3
        "2024-02-01" "2024-03-01").2 = sampleStore)
    ∧ ((∀ o ∈ sampleStore.okrs, ∃ kr, json_loads_list o.key_results = some kr ∧ kr ≠ []) →
      ∀ o ∈ (create_okr_submit sampleStore "T2" "" "Obj2" ["K1"] (some 1) (some 1) 3
          "2024-02-01" "2024-03-01").2.okrs,
        ∃ kr, json_loads_list o.key_results = some kr ∧ kr ≠ []) :=
  c4_create_validation sampleStore "T2" "" "Obj2" ["K1"] (some 1) (some 1) 3
    "2024-02-01" "2024-03-01"

/-- C5: registering with a username and email that do not yet occur in the
user store succeeds and persists the new user; afterwards, any registration
reusing the same username or the same email returns failure (the caught
`IntegrityError`, surfaced as `False`) and leaves the user set unchanged. -/
theorem c5_register_unique (sha256 : String → String) (s : Store)
    (username email password role : String) (dep team : Option Int)
    (hfresh : ∀ u ∈ s.users, u.username ≠ username ∧ u.email ≠ email) :
    (create_user sha256 s username email password role dep team).1 = true
    ∧ (∃ u ∈ (create_user sha256 s username email password role dep team).2.users,
        u.username = username ∧ u.email = email
          ∧ u.password_hash = hash_password sha256 password ∧ u.role = role)
    ∧ (∀ username2 email2 password2 role2 dep2 team2,
        username2 = username ∨ email2 = email →
        create_user sha256 (create_user sha256 s username email password role dep team).2
            username2 email2 password2 role2 dep2 team2
          = (false, (create_user sha256 s username email password role dep team).2)) := by
  have hany : (s.users.any fun u => u.username == username || u.email == email) = false := by
    rw [List.any_eq_false]
    intro u hu
    simp only [Bool.or_eq_true, beq_iff_eq, not_or]
    exact ⟨(hfresh u hu).1, (hfresh u hu).2⟩
  refine ⟨?_, ?_, ?_⟩
  · simp [create_user, hany]
  · refine ⟨new_user sha256 s username email password role dep team, ?_, rfl, rfl, rfl, rfl⟩
    simp [create_user, hany]
  · intro username2 email2 password2 role2 dep2 team2 hdup
    have hmem : (create_user sha256 s username email password role dep team).2.users =
        s.users ++ [new_user sha256 s username email password role dep team] := by
      simp [create_user, hany]
    have hany2 : ((create_user sha256 s username email password role dep team).2.users.any
        fun u => u.username == username2 || u.email == email2) = true := by
      rw [hmem, List.any_eq_true]
      refine ⟨new_user sha256 s username email password role dep team,
        List.mem_append_right _ (by simp), ?_⟩
      rcases hdup with h2 | h2 <;> simp [h2, new_user]
    generalize hg : (create_user sha256 s username email password role dep team).2 = s2
      at hany2 ⊢
    unfold create_user
    rw [hany2, if_pos rfl]

/-- C5 witness: registering alice in the empty store succeeds, and a second
registration reusing her username or her email fails without changing the
user set. -/
theorem c5_register_unique_witness :
    (create_user (fun p => p) emptyStore "alice" "alice@x.com" "pw1" "Admin" none none).1
        = true
    ∧ (∃ u ∈ (create_user (fun p => p) emptyStore "alice" "alice@x.com" "pw1" "Admin"
          none none).2.users,
        u.username = "alice" ∧ u.email = "alice@x.com"
          ∧ u.password_hash = hash_password (fun p => p) "pw1" ∧ u.role = "Admin")
    ∧ (∀ username2 email2 password2 role2 dep2 team2,
        username2 = "alice" ∨ email2 = "alice@x.com" →
        create_user (fun p => p) (create_user (fun p => p) emptyStore "alice" "alice@x.com"
              "pw1" "Admin" none none).2 username2 email2 password2 role2 dep2 team2
          = (false, (create_user (fun p => p) emptyStore "alice" "alice@x.com" "pw1"
              "Admin" none none).2)) :=
  c5_register_unique (fun p => p) emptyStore "alice" "alice@x.com" "pw1" "Admin" none none
    (by decide)

theorem find?_username_unique (l : List UserRec) (username : String) (u : UserRec)
    (huniq : l.Pairwise fun a b => a.username ≠ b.username)
    (hu : u ∈ l) (hname : u.username = username) :
    (l.find? fun v => v.username == username) = some u := by
  induction l with
  | nil => cases hu
  | cons w t ih =>
    have hpair := List.pairwise_cons.mp huniq
    rcases List.mem_cons.mp hu with rfl | hmem
    · simp [List.find?_cons, hname]
    · have hw : (w.username == username) = false := by
        simp only [beq_eq_false_iff_ne, ne_eq]
        rw [← hname]
        exact hpair.1 u hmem
      rw [List.find?_cons, hw]
      exact ih hpair.2 hmem

/-- C6: `authenticate_user` returns the context dictionary (id, username,
email, role, department and team references) of the stored user with the
given username exactly when such a user exists and the hash of the supplied
password equals the stored hash; with a wrong password, and equally with an
unknown username, it returns the same single failure value `none` — the
result does not reveal which of the two was wrong.  The username column is
`UNIQUE`, hence the pairwise-distinctness hypothesis. -/
theorem c6_authenticate (sha256 : String → String) (s : Store)
    (username password : String)
    (huniq : s.users.Pairwise fun a b => a.username ≠ b.username) :
    (∀ u ∈ s.users, u.username = username →
      authenticate_user sha256 s username password =
        if sha256 password = u.password_hash then
          some { id := u.id, username := u.username, email := u.email, role := u.role,
                 department_id := u.department_id, team_id := u.team_id }
        else none)
    ∧ ((∀ u ∈ s.users, u.username ≠ username) →
        authenticate_user sha256 s username password = none) := by
  constructor
  · intro u hu hname
    have hfind := find?_username_unique s.users username u huniq hu hname
    by_cases hpw : sha256 password = u.password_hash <;>
      simp [authenticate_user, hfind, verify_password, hash_password, hpw]
  · intro hfar
    have hfind : (s.users.find? fun v => v.username == username) = none := by
      rw [List.find?_eq_none]
      intro u hu
      simp only [beq_iff_eq]
      exact hfar u hu
    simp [authenticate_user, hfind]

/-- C6 witness: in `sampleStore` (hash primitive instantiated with the
identity, so alice's stored hash is `"pw1"`), authenticating as alice
returns her context for the right password and `none` otherwise, and the
unknown username `"dave"` also yields `none`. -/
theorem c6_authenticate_witness :
    (∀ u ∈ sampleStore.users, u.username = "alice" →
      authenticate_user (fun p => p) sampleStore "alice" "pw1" =
        if (fun p : String => p) "pw1" = u.password_hash then
          some { id := u.id, username := u.username, email := u.email, role := u.role,
                 department_id := u.department_id, team_id := u.team_id }
        else none)
    ∧ ((∀ u ∈ sampleStore.users, u.username ≠ "alice") →
        authenticate_user (fun p => p) sampleStore "alice" "pw1" = none) :=
  c6_authenticate (fun p => p) sampleStore "alice" "pw1" (by decide)

/-- C8: creating an OKR with an arbitrary ordered list of key-result
strings and reading it back through `get_okrs` (filtered by the assignee,
as the My-OKRs view does) yields a row whose `key_results` field
deserializes to exactly the same strings in the same order — the
`json.dumps`/`json.loads` round-trip is lossless.  Assignee ids are
autoincrement values, hence nonzero. -/
theorem c8_key_results_roundtrip (s : Store) (title description objective : String)
    (key_results : List String) (team_id user_id actor : Int)
    (start_date end_date : String) (hu : user_id ≠ 0) :
    ∃ row ∈ get_okrs (create_okr s title description objective key_results team_id
        user_id actor start_date end_date) none (some user_id),
      row.id = s.next_okr_id ∧ json_loads_list row.key_results = some key_results := by
  have htr : truthy (some user_id) = true := by simp [truthy, hu]
  have hfn : truthy none = false := rfl
  simp only [get_okrs, htr, hfn, Bool.false_eq_true, if_true, if_false]
  refine ⟨joinOkr (create_okr s title description objective key_results team_id user_id
        actor start_date end_date)
      (new_okr s title description objective key_results team_id user_id actor
        start_date end_date),
    List.mem_map_of_mem _ (List.mem_filter.mpr ⟨List.mem_append_right s.okrs (by simp),
      beq_self_eq_true (some user_id)⟩),
    rfl, json_loads_dumps key_results⟩

/-- C8 witness: the spec's example — key results `["A", "B", "C"]` — read
back from the store in the same order. -/
theorem c8_key_results_roundtrip_witness :
    ∃ row ∈ get_okrs (create_okr sampleStore "T3" "" "Obj3" ["A", "B", "C"] 1 1 2
        "2024-01-01" "2024-06-30") none (some 1),
      row.id = sampleStore.next_okr_id
        ∧ json_loads_list row.key_results = some ["A", "B", "C"] :=
  c8_key_results_roundtrip sampleStore "T3" "" "Obj3" ["A", "B", "C"] 1 1 2
    "2024-01-01" "2024-06-30" (by decide)

end MyOkr
